import Mathlib

/-!
Shallow embedding of the GitArena access-control gateway slice:
`src/git/basic_auth.rs` (credential parsing, authentication, repository
access gating), `src/extensions.rs` (identity-token resolution, reserved
filesystem names) and `src/prelude.rs` (commit-signature disambiguation).

Rust `anyhow::Result` values become `Except GAError`; the Postgres user
table becomes an explicit `List User`; database round trips and credential
parsing are made observable through an explicit event trace threaded
through the functions that perform them.
-/

set_option maxRecDepth 4096

/-- Modelled from the spec: `crate::error::GAErrors` is not part of this source
slice. `GitError(status, message)` is the variant the gateway constructs; the
Base64-decode and UTF-8 errors model the foreign error types propagated by the
`?` operator in `parse_basic_auth`, and `CheckPasswordError` models a failure
of the external password-verification capability. -/
inductive GAError where
  | GitError (status : Nat) (message : Option String)
  | Base64DecodeError
  | Utf8Error
  | CheckPasswordError
deriving DecidableEq, Repr

/-- Modelled from the spec: the `User` row (crate::user) is not part of this
source slice; spec §3 lists attributes id, username, email, password
hash/verifier state and session token. The password-verification material is
consumed only through the external capability, so it is not a field here. -/
structure User where
  id : Int
  username : String
  email : String
  session : String
deriving DecidableEq, Repr, Inhabited

/-- Modelled from the spec: `RepoVisibility` (crate::privileges) is not part of
this source slice; spec §3 gives `enum (Public, Private, ...)`. -/
inductive RepoVisibility where
  | Public
  | Private
  | Internal
deriving DecidableEq, Repr

/-- Modelled from the spec: the `Repository` row (crate::repository) is not
part of this source slice; spec §3 gives attributes id, owner, name,
visibility. -/
structure Repository where
  id : Int
  owner : String
  name : String
  visibility : RepoVisibility
deriving DecidableEq, Repr

/-- The only header the embedded slice reads is `authorization`
(`request.get_header("authorization")` / `basic_auth::is_present`). -/
structure HttpRequest where
  authorization : Option String
deriving DecidableEq, Repr

/-- `HttpRequestExtensions::get_header` from src/prelude.rs, restricted to the
headers the slice carries. -/
def HttpRequest.get_header (r : HttpRequest) (header : String) : Option String :=
  if header = "authorization" then r.authorization else none

/-- actix-web `HttpResponse` as observed by this slice: status code, the
headers set by the builder in order, and the body (`finish()` gives ""). -/
structure HttpResponse where
  status : Nat
  headers : List (String × String)
  body : String
deriving DecidableEq, Repr

/-- actix-web `Either`. -/
inductive Either (α β : Type) where
  | A (a : α)
  | B (b : β)
deriving DecidableEq, Repr

/-- Observable effects of the gateway: an invocation of `parse_basic_auth`, a
database query (recording the bound username), and a call to
`crypto::check_password`. -/
inductive Event where
  | parseCall (header : String)
  | dbQuery (username : String)
  | pwCheck (username : String)
deriving DecidableEq, Repr

def Event.isDbQuery : Event → Bool
  | .dbQuery _ => true
  | _ => false

/-- `crypto::check_password(&user, &password) -> Result<bool>` as an abstract
capability (spec §9: "model password verification ... as capability
interfaces"). -/
def CheckPassword : Type := User → String → Except GAError Bool

/-- Rust `str::splitn(2, sep)` on a single-character separator, over char
lists: `none` when the separator does not occur. -/
def splitOnce (sep : Char) : List Char → Option (List Char × List Char)
  | [] => none
  | c :: rest =>
    if c = sep then some ([], rest)
    else
      match splitOnce sep rest with
      | some (pre, post) => some (c :: pre, post)
      | none => none

/-- Rust `s.splitn(2, sep)`: the first component is the prefix before the
first separator (the whole string when the separator is absent); the second
is the remainder, `none` when the separator is absent (`next()` on the
exhausted iterator). -/
def splitn2 (sep : Char) (s : String) : String × Option String :=
  match splitOnce sep s.data with
  | some (pre, post) => (⟨pre⟩, some ⟨post⟩)
  | none => (s, none)

/-- Rust `str::parse::<i32>()`: optional sign, at least one ASCII digit,
value within i32 range; `none` on any other input. -/
def parseI32 (s : String) : Option Int :=
  let signDigits : Int × List Char :=
    match s.data with
    | '+' :: rest => (1, rest)
    | '-' :: rest => (-1, rest)
    | cs => (1, cs)
  let sign := signDigits.1
  let digits := signDigits.2
  if digits.isEmpty then none
  else if digits.all (fun c => c.isDigit) then
    let n : Nat := digits.foldl (fun acc c => acc * 10 + (c.toNat - '0'.toNat)) 0
    let v : Int := sign * (n : Int)
    if -2147483648 ≤ v ∧ v ≤ 2147483647 then some v else none
  else none

/-- Value of one character of the standard Base64 alphabet. -/
def b64Char (c : Char) : Option Nat :=
  if 'A' ≤ c ∧ c ≤ 'Z' then some (c.toNat - 'A'.toNat)
  else if 'a' ≤ c ∧ c ≤ 'z' then some (c.toNat - 'a'.toNat + 26)
  else if '0' ≤ c ∧ c ≤ '9' then some (c.toNat - '0'.toNat + 52)
  else if c = '+' then some 62
  else if c = '/' then some 63
  else none

def b64Vals : List Char → Option (List Nat)
  | [] => some []
  | c :: rest =>
    match b64Char c, b64Vals rest with
    | some v, some vs => some (v :: vs)
    | _, _ => none

/-- Decode a list of 6-bit values into bytes; rejects a leftover length of 1
and nonzero trailing bits, as the `base64` crate does. -/
def b64Groups : List Nat → Option (List Nat)
  | [] => some []
  | [_] => none
  | [a, b] => if b % 16 = 0 then some [a * 4 + b / 16] else none
  | [a, b, c] =>
    if c % 4 = 0 then some [a * 4 + b / 16, (b % 16) * 16 + c / 4] else none
  | a :: b :: c :: d :: rest =>
    match b64Groups rest with
    | some bytes => some ((a * 4 + b / 16) :: ((b % 16) * 16 + c / 4) :: ((c % 4) * 64 + d) :: bytes)
    | none => none

/-- Rust `base64::decode` (standard alphabet): strips well-formed trailing
padding, then decodes; `none` on foreign characters, bad length or bad
padding. -/
def base64Decode (s : String) : Option (List Nat) :=
  let cs := s.data
  let padCount := (cs.reverse.takeWhile (fun c => c = '=')).length
  let main := cs.take (cs.length - padCount)
  if padCount > 2 then none
  else if padCount > 0 ∧ cs.length % 4 ≠ 0 then none
  else
    match b64Vals main with
    | some vals => b64Groups vals
    | none => none

/-- Rust `String::from_utf8` over byte lists: strict UTF-8 (continuation
bytes, overlong forms and surrogates rejected). -/
def utf8DecodeList : List Nat → Option (List Char)
  | [] => some []
  | b :: rest =>
    if b < 0x80 then (utf8DecodeList rest).map (fun cs => Char.ofNat b :: cs)
    else if b < 0xC2 then none
    else if b < 0xE0 then
      match rest with
      | b2 :: rest2 =>
        if 0x80 ≤ b2 ∧ b2 < 0xC0 then
          (utf8DecodeList rest2).map (fun cs => Char.ofNat ((b - 0xC0) * 64 + (b2 - 0x80)) :: cs)
        else none
      | [] => none
    else if b < 0xF0 then
      match rest with
      | b2 :: b3 :: rest3 =>
        if (0x80 ≤ b2 ∧ b2 < 0xC0) ∧ (0x80 ≤ b3 ∧ b3 < 0xC0) ∧
            (b = 0xE0 → 0xA0 ≤ b2) ∧ (b = 0xED → b2 < 0xA0) then
          (utf8DecodeList rest3).map
            (fun cs => Char.ofNat ((b - 0xE0) * 4096 + (b2 - 0x80) * 64 + (b3 - 0x80)) :: cs)
        else none
      | _ => none
    else if b < 0xF5 then
      match rest with
      | b2 :: b3 :: b4 :: rest4 =>
        if (0x80 ≤ b2 ∧ b2 < 0xC0) ∧ (0x80 ≤ b3 ∧ b3 < 0xC0) ∧ (0x80 ≤ b4 ∧ b4 < 0xC0) ∧
            (b = 0xF0 → 0x90 ≤ b2) ∧ (b = 0xF4 → b2 < 0x90) then
          (utf8DecodeList rest4).map
            (fun cs =>
              Char.ofNat ((b - 0xF0) * 262144 + (b2 - 0x80) * 4096 + (b3 - 0x80) * 64 + (b4 - 0x80)) :: cs)
        else none
      | _ => none
    else none

def utf8Decode (bytes : List Nat) : Option String :=
  (utf8DecodeList bytes).map (fun cs => ⟨cs⟩)

/-- `parse_basic_auth` from src/git/basic_auth.rs: split the header on the
first space, require the literal scheme "Basic", Base64-decode the second
part, decode the bytes as UTF-8, split on the first colon, and reject an
empty username or password. -/
def parse_basic_auth (auth_header : String) : Except GAError (String × String) :=
  let split := splitn2 ' ' auth_header
  let auth_type := split.1
  let base64_creds := (split.2).getD ""
  if auth_type ≠ "Basic" then .error (.GitError 401 none)
  else
    match base64Decode base64_creds with
    | none => .error .Base64DecodeError
    | some bytes =>
      match utf8Decode bytes with
      | none => .error .Utf8Error
      | some creds =>
        let splitted_creds := splitn2 ':' creds
        let username := splitted_creds.1
        let password := (splitted_creds.2).getD ""
        if username.isEmpty || password.isEmpty then
          .error (.GitError 401 (some "Incorrect username or password"))
        else .ok (username, password)

example : parse_basic_auth "Basic YWxpY2U6eA==" = .ok ("alice", "x") := rfl
example : parse_basic_auth "Basic YWxpY2U6" =
    .error (.GitError 401 (some "Incorrect username or password")) := rfl
example : parse_basic_auth "Bearer dG9rZW4=" = .error (.GitError 401 none) := rfl
example : parse_basic_auth "Basic !!!" = .error .Base64DecodeError := rfl
example : parse_basic_auth "Basic /w==" = .error .Utf8Error := rfl
example : parse_basic_auth "Basic YWxpY2U=" =
    .error (.GitError 401 (some "Incorrect username or password")) := rfl

/-- `is_present` from src/git/basic_auth.rs. -/
def is_present (request : HttpRequest) : Bool :=
  (request.get_header "authorization").isSome

/-- `prompt` from src/git/basic_auth.rs: a 401 response carrying the caller's
content type and the Basic challenge header, with an empty body
(`finish()`). -/
def prompt (content_type : String) : HttpResponse :=
  { status := 401
    headers := [("Content-Type", content_type),
                ("WWW-Authenticate", "Basic realm=\"GitArena\", charset=\"UTF-8\"")]
    body := "" }

/-- `authenticate` from src/git/basic_auth.rs. The database is the list of
user rows; the second component of the result is the trace of observable
effects (parse invocation, the single `select ... where username = $1 limit 1`
round trip, the `crypto::check_password` call). -/
def authenticate (cp : CheckPassword) (db : List User) (request : HttpRequest) :
    Except GAError User × List Event :=
  match request.get_header "authorization" with
  | some auth_header =>
    let log := [Event.parseCall auth_header]
    match parse_basic_auth auth_header with
    | .error e => (.error e, log)
    | .ok (username, password) =>
      if username.isEmpty || password.isEmpty then
        (.error (.GitError 401 (some "Incorrect username or password")), log)
      else
        let log := log ++ [Event.dbQuery username]
        let option : Option User := db.find? (fun u => u.username == username)
        if option.isNone then
          (.error (.GitError 401 (some "Incorrect username or password")), log)
        else
          let user := option.getD default
          let log := log ++ [Event.pwCheck user.username]
          match cp user password with
          | .error e => (.error e, log)
          | .ok ok =>
            if !ok then
              (.error (.GitError 401 (some "Incorrect username or password")), log)
            else (.ok user, log)
  | none => (.error (.GitError 401 none), [])

/-- `login_flow` from src/git/basic_auth.rs: challenge when no Authorization
header is present, otherwise delegate to `authenticate`. -/
def login_flow (cp : CheckPassword) (db : List User) (request : HttpRequest)
    (content_type : String) : Except GAError (Either User HttpResponse) × List Event :=
  if !is_present request then (.ok (.B (prompt content_type)), [])
  else
    match authenticate cp db request with
    | (.ok user, log) => (.ok (.A user), log)
    | (.error e, log) => (.error e, log)

/-- `validate_repo_access` from src/git/basic_auth.rs. For an absent
repository the source runs `login_flow(...)?` for its side effect: the `?`
propagates a login failure, and only a successful flow falls through to
`GitError(404, None)`. -/
def validate_repo_access (cp : CheckPassword) (db : List User)
    (repo : Option Repository) (content_type : String) (request : HttpRequest) :
    Except GAError (Either (Option User × Repository) HttpResponse) × List Event :=
  match repo with
  | some repo =>
    if repo.visibility ≠ RepoVisibility.Public then
      match login_flow cp db request content_type with
      | (.ok (.A user), log) => (.ok (.A (some user, repo)), log)
      | (.ok (.B response), log) => (.ok (.B response), log)
      | (.error e, log) => (.error e, log)
    else (.ok (.A (none, repo)), [])
  | none =>
    match login_flow cp db request content_type with
    | (.ok _, log) => (.error (.GitError 404 none), log)
    | (.error e, log) => (.error e, log)

/-- `get_user_by_identity` from src/extensions.rs: split the token on the
first `$`, parse the id (sentinel `-1` on failure), default the session to
"unknown", and return the first row matching both (`fetch_one(..).ok()`
turns a missing row into `None`). Total: it never fails. -/
def get_user_by_identity (identity : Option String) (db : List User) : Option User :=
  match identity with
  | some id_str =>
    let split := splitn2 '$' id_str
    let id : Int := (parseI32 split.1).getD (-1)
    let session := (split.2).getD "unknown"
    db.find? (fun u => u.id == id && u.session == session)
  | none => none

/-- `is_fs_legal` from src/extensions.rs: exact-case comparison against the
reserved names, the COM/LPT families produced by a loop over 0..=9. -/
def is_fs_legal (input : String) : Bool :=
  let legal := input != "CON"
  let legal := legal && (input != "PRN")
  let legal := legal && (input != "AUX")
  let legal := legal && (input != "NUL")
  let legal := legal && (input != "LST")
  (List.range 10).foldl
    (fun legal i => (legal && (input != "COM" ++ toString i)) && (input != "LPT" ++ toString i))
    legal

/-- A git commit-author signature as read by `try_disassemble`: `name()` and
`email()` are `None` when the raw bytes are not valid UTF-8. -/
structure Signature where
  name : Option String
  email : Option String
deriving DecidableEq, Repr

/-- ASCII lowering of one character, modelling SQL `lower()` as it acts on the
email strings this slice compares. -/
def lowerChar (c : Char) : Char :=
  if 'A' ≤ c ∧ c ≤ 'Z' then Char.ofNat (c.toNat + 32) else c

def lowerString (s : String) : String := ⟨s.data.map lowerChar⟩

/-- `try_disassemble` from src/prelude.rs: look the email up case-insensitively
(`where lower(email) = lower($1)`); on a hit return the registered username and
id, otherwise the signature's name (or "Ghost") and no id. -/
def try_disassemble (sig : Signature) (db : List User) : String × Option Int :=
  let option : Option (String × Int) :=
    match sig.email with
    | some email =>
      (db.find? (fun u => lowerString u.email == lowerString email)).map
        (fun u => (u.username, u.id))
    | none => none
  match option with
  | none => ((sig.name).getD "Ghost", none)
  | some (username, id) => (username, some id)

def cpFalse : CheckPassword := fun _ _ => .ok false

def cpTrue : CheckPassword := fun _ _ => .ok true

def aliceUser : User :=
  { id := 1, username := "alice", email := "alice@example.com", session := "sess1" }

example :
    authenticate cpTrue [aliceUser] { authorization := some "Basic YWxpY2U6eA==" } =
      (.ok aliceUser,
       [.parseCall "Basic YWxpY2U6eA==", .dbQuery "alice", .pwCheck "alice"]) := rfl

example :
    validate_repo_access cpFalse [aliceUser] none "text/plain"
        { authorization := some "Basic YWxpY2U6eA==" } =
      (.error (.GitError 401 (some "Incorrect username or password")),
       [.parseCall "Basic YWxpY2U6eA==", .dbQuery "alice", .pwCheck "alice"]) := rfl

example : get_user_by_identity (some "42$abc123")
    [{ id := 42, username := "bob", email := "b@e", session := "abc123" }] =
    some { id := 42, username := "bob", email := "b@e", session := "abc123" } := rfl

example : get_user_by_identity (some "notanumber") [aliceUser] = none := rfl

example : is_fs_legal "con" = true := rfl
example : is_fs_legal "COM7" = false := rfl
example : is_fs_legal "readme" = true := rfl

def pubRepo : Repository :=
  { id := 10, owner := "alice", name := "proj", visibility := .Public }

def privRepo : Repository :=
  { id := 11, owner := "alice", name := "secret", visibility := .Private }

def carolUser : User :=
  { id := 42, username := "carol", email := "carol@example.com", session := "abc123" }

def unknownSessionUser : User :=
  { id := 42, username := "bob", email := "bob@example.com", session := "unknown" }

/-- A successful parse only leaves through the final branch, whose guard has
already ruled out an empty username or password. -/
theorem parse_ok_nonempty (hdr u p : String)
    (h : parse_basic_auth hdr = .ok (u, p)) :
    (u.isEmpty || p.isEmpty) = false := by
  simp only [parse_basic_auth] at h
  split at h
  · exact absurd h (by simp)
  · split at h
    · exact absurd h (by simp)
    · split at h
      · exact absurd h (by simp)
      · split at h
        · exact absurd h (by simp)
        · rename_i hguard
          simp only [Except.ok.injEq, Prod.mk.injEq] at h
          obtain ⟨h1, h2⟩ := h
          subst h1
          subst h2
          simpa using hguard

/-- Splitting `"Basic " ++ s` on the first space always yields scheme
`"Basic"` and remainder `s`. -/
theorem splitn2_space_basic (s : String) :
    splitn2 ' ' ("Basic " ++ s) = ("Basic", some s) := by
  have hdata : ("Basic " ++ s).data = 'B' :: 'a' :: 's' :: 'i' :: 'c' :: ' ' :: s.data := rfl
  unfold splitn2
  rw [hdata]
  simp [splitOnce]

/-- Claim C4: for a present repository with Public visibility,
`validate_repo_access` immediately grants anonymous access `(None, repo)` for
every request — Authorization header present or not — with an empty effect
trace: the credential parser is never invoked and no database lookup is
performed. -/
theorem validate_public_anonymous (cp : CheckPassword) (db : List User)
    (repo : Repository) (ct : String) (req : HttpRequest)
    (h : repo.visibility = RepoVisibility.Public) :
    validate_repo_access cp db (some repo) ct req = (.ok (.A (none, repo)), []) := by
  simp [validate_repo_access, h]

theorem validate_public_anonymous_witness :
    validate_repo_access cpFalse [aliceUser] (some pubRepo) "text/plain"
        { authorization := some "Basic YWxpY2U6eA==" } = (.ok (.A (none, pubRepo)), []) :=
  validate_public_anonymous cpFalse [aliceUser] pubRepo "text/plain"
    { authorization := some "Basic YWxpY2U6eA==" } rfl

/-- Claim C5: when the request carries no Authorization header, `login_flow`
returns (without error) the challenge response: status 401, the
`WWW-Authenticate: Basic realm="GitArena", charset="UTF-8"` header, the
caller's content type echoed in `Content-Type`, and an empty body. -/
theorem login_flow_challenge (cp : CheckPassword) (db : List User)
    (req : HttpRequest) (ct : String) (h : req.authorization = none) :
    login_flow cp db req ct =
      (.ok (.B { status := 401
                 headers := [("Content-Type", ct),
                             ("WWW-Authenticate", "Basic realm=\"GitArena\", charset=\"UTF-8\"")]
                 body := "" }), []) := by
  simp [login_flow, is_present, HttpRequest.get_header, h, prompt]

theorem login_flow_challenge_witness :
    login_flow cpFalse [aliceUser] { authorization := none } "text/plain" =
      (.ok (.B { status := 401
                 headers := [("Content-Type", "text/plain"),
                             ("WWW-Authenticate", "Basic realm=\"GitArena\", charset=\"UTF-8\"")]
                 body := "" }), []) :=
  login_flow_challenge cpFalse [aliceUser] { authorization := none } "text/plain" rfl

/-- Claim C3: `authenticate` answers an unknown username and a known username
with a failing password with the identical generic error
`401 "Incorrect username or password"`, so the two causes are
indistinguishable from the result value. -/
theorem authenticate_generic_denial (cp : CheckPassword) (db : List User)
    (req : HttpRequest) (hdr u p : String)
    (hh : req.authorization = some hdr)
    (hp : parse_basic_auth hdr = .ok (u, p)) :
    (db.find? (fun x => x.username == u) = none →
      (authenticate cp db req).1 =
        .error (.GitError 401 (some "Incorrect username or password"))) ∧
    (∀ user, db.find? (fun x => x.username == u) = some user →
      cp user p = .ok false →
      (authenticate cp db req).1 =
        .error (.GitError 401 (some "Incorrect username or password"))) := by
  have hne := parse_ok_nonempty hdr u p hp
  constructor
  · intro hfind
    simp [authenticate, HttpRequest.get_header, hh, hp, hne, hfind]
  · intro user hfind hcp
    simp [authenticate, HttpRequest.get_header, hh, hp, hne, hfind, hcp]

theorem authenticate_generic_denial_witness :
    (authenticate cpFalse [] { authorization := some "Basic YWxpY2U6eA==" }).1 =
      .error (.GitError 401 (some "Incorrect username or password")) ∧
    (authenticate cpFalse [aliceUser] { authorization := some "Basic YWxpY2U6eA==" }).1 =
      .error (.GitError 401 (some "Incorrect username or password")) := by
  constructor
  · exact (authenticate_generic_denial cpFalse []
      { authorization := some "Basic YWxpY2U6eA==" } "Basic YWxpY2U6eA==" "alice" "x"
      rfl rfl).1 rfl
  · exact (authenticate_generic_denial cpFalse [aliceUser]
      { authorization := some "Basic YWxpY2U6eA==" } "Basic YWxpY2U6eA==" "alice" "x"
      rfl rfl).2 aliceUser rfl rfl

/-- Claim C6: for a present non-Public repository and a well-formed Basic
header whose username matches a stored user and whose password passes the
verification capability, `validate_repo_access` returns `(Some user, repo)`
with exactly the stored user found for that username. -/
theorem validate_private_authenticated (cp : CheckPassword) (db : List User)
    (repo : Repository) (ct : String) (req : HttpRequest) (hdr u p : String)
    (user : User)
    (hv : repo.visibility ≠ RepoVisibility.Public)
    (hh : req.authorization = some hdr)
    (hp : parse_basic_auth hdr = .ok (u, p))
    (hf : db.find? (fun x => x.username == u) = some user)
    (hcp : cp user p = .ok true) :
    (validate_repo_access cp db (some repo) ct req).1 = .ok (.A (some user, repo)) := by
  have hne := parse_ok_nonempty hdr u p hp
  have hauth : authenticate cp db req =
      (.ok user, [.parseCall hdr, .dbQuery u, .pwCheck user.username]) := by
    simp [authenticate, HttpRequest.get_header, hh, hp, hne, hf, hcp]
  simp [validate_repo_access, hv, login_flow, is_present, HttpRequest.get_header, hh, hauth]

theorem validate_private_authenticated_witness :
    (validate_repo_access cpTrue [aliceUser] (some privRepo) "text/plain"
        { authorization := some "Basic YWxpY2U6eA==" }).1 =
      .ok (.A (some aliceUser, privRepo)) :=
  validate_private_authenticated cpTrue [aliceUser] privRepo "text/plain"
    { authorization := some "Basic YWxpY2U6eA==" } "Basic YWxpY2U6eA==" "alice" "x"
    aliceUser (by decide) rfl rfl rfl rfl

/-- Claim C1 (counterexample): with the repository lookup absent but the
request carrying syntactically valid yet incorrect credentials, the login
flow's error is propagated by `?`, so `validate_repo_access` terminates with
`GitError 401 "Incorrect username or password"` — not the claimed
`GitError 404` NotFound outcome. -/
theorem validate_absent_repo_counterexample :
    (validate_repo_access cpFalse [aliceUser] none "text/plain"
        { authorization := some "Basic YWxpY2U6eA==" }).1 =
      .error (.GitError 401 (some "Incorrect username or password")) ∧
    GAError.GitError 401 (some "Incorrect username or password") ≠
      GAError.GitError 404 none :=
  ⟨rfl, by decide⟩

/-- Claim C1 (amended): with the repository lookup absent, requests with no
Authorization header and requests whose login flow succeeds terminate with
`GitError 404` carrying no message; a request whose login flow fails (invalid
or malformed credentials) terminates with that login error instead. -/
theorem validate_absent_repo (cp : CheckPassword) (db : List User)
    (ct : String) (req : HttpRequest) :
    (req.authorization = none →
      (validate_repo_access cp db none ct req).1 = .error (.GitError 404 none)) ∧
    (∀ user, (login_flow cp db req ct).1 = .ok user →
      (validate_repo_access cp db none ct req).1 = .error (.GitError 404 none)) ∧
    (∀ e, (login_flow cp db req ct).1 = .error e →
      (validate_repo_access cp db none ct req).1 = .error e) := by
  refine ⟨?_, ?_, ?_⟩
  · intro h
    simp [validate_repo_access, login_flow, is_present, HttpRequest.get_header, h]
  · intro user h
    rcases hL : login_flow cp db req ct with ⟨res, log⟩
    rw [hL] at h
    simp only at h
    subst h
    simp [validate_repo_access, hL]
  · intro e h
    rcases hL : login_flow cp db req ct with ⟨res, log⟩
    rw [hL] at h
    simp only at h
    subst h
    simp [validate_repo_access, hL]

theorem validate_absent_repo_witness :
    (validate_repo_access cpFalse [aliceUser] none "text/plain"
        { authorization := none }).1 = .error (.GitError 404 none) :=
  (validate_absent_repo cpFalse [aliceUser] "text/plain" { authorization := none }).1 rfl

/-- Claim C2 (counterexample): the malformed-header failure shapes differ. A
wrong scheme fails with `401` and no message; a decoded text missing its colon
fails with `401 "Incorrect username or password"`; invalid Base64 fails with
the propagated decode error — three distinct failure values, so the claimed
"exact same denial message text" does not hold. -/
theorem parse_denials_differ :
    parse_basic_auth "Bearer dG9rZW4=" = .error (.GitError 401 none) ∧
    parse_basic_auth "Basic YWxpY2U=" =
      .error (.GitError 401 (some "Incorrect username or password")) ∧
    parse_basic_auth "Basic !!!" = .error .Base64DecodeError ∧
    GAError.GitError 401 none ≠
      GAError.GitError 401 (some "Incorrect username or password") ∧
    GAError.Base64DecodeError ≠
      GAError.GitError 401 (some "Incorrect username or password") :=
  ⟨rfl, rfl, rfl, by decide, by decide⟩

/-- Claim C2 (amended): every malformed Authorization header fails, with three
shapes: a scheme other than `"Basic"` fails with `401` and no message; a
second part that is not valid Base64, or bytes that are not valid UTF-8, fail
with the propagated decode error; a decoded text missing its colon, or with an
empty username or password, fails with `401 "Incorrect username or password"`.
In the empty-password case `authenticate` fails with that generic message with
an effect trace containing only the parse call — before any database
lookup. -/
theorem parse_malformed_denials :
    (∀ hdr, (splitn2 ' ' hdr).1 ≠ "Basic" →
      parse_basic_auth hdr = .error (.GitError 401 none)) ∧
    (∀ s, base64Decode s = none →
      parse_basic_auth ("Basic " ++ s) = .error .Base64DecodeError) ∧
    (∀ s bytes, base64Decode s = some bytes → utf8Decode bytes = none →
      parse_basic_auth ("Basic " ++ s) = .error .Utf8Error) ∧
    (∀ s bytes creds, base64Decode s = some bytes → utf8Decode bytes = some creds →
      (splitn2 ':' creds).2 = none →
      parse_basic_auth ("Basic " ++ s) =
        .error (.GitError 401 (some "Incorrect username or password"))) ∧
    (∀ s bytes creds, base64Decode s = some bytes → utf8Decode bytes = some creds →
      ((splitn2 ':' creds).1.isEmpty || (((splitn2 ':' creds).2).getD "").isEmpty) = true →
      parse_basic_auth ("Basic " ++ s) =
        .error (.GitError 401 (some "Incorrect username or password"))) ∧
    (∀ (cp : CheckPassword) (db : List User) (req : HttpRequest) (hdr : String),
      req.authorization = some hdr →
      parse_basic_auth hdr = .error (.GitError 401 (some "Incorrect username or password")) →
      authenticate cp db req =
        (.error (.GitError 401 (some "Incorrect username or password")),
         [.parseCall hdr])) := by
  refine ⟨?_, ?_, ?_, ?_, ?_, ?_⟩
  · intro hdr hscheme
    simp [parse_basic_auth, hscheme]
  · intro s hb
    simp [parse_basic_auth, splitn2_space_basic, hb]
  · intro s bytes hb hu
    simp [parse_basic_auth, splitn2_space_basic, hb, hu]
  · intro s bytes creds hb hu hcolon
    simp [parse_basic_auth, splitn2_space_basic, hb, hu, hcolon]
    exact fun _ => rfl
  · intro s bytes creds hb hu hempty
    simp [parse_basic_auth, splitn2_space_basic, hb, hu, hempty]
  · intro cp db req hdr hh hp
    simp [authenticate, HttpRequest.get_header, hh, hp]

theorem parse_malformed_denials_witness :
    authenticate cpFalse [aliceUser] { authorization := some "Basic YWxpY2U6" } =
      (.error (.GitError 401 (some "Incorrect username or password")),
       [.parseCall "Basic YWxpY2U6"]) :=
  parse_malformed_denials.2.2.2.2.2 cpFalse [aliceUser]
    { authorization := some "Basic YWxpY2U6" } "Basic YWxpY2U6" rfl rfl

/-- Claim C7 (counterexample): the token `"42"` has no `$` separator, yet its
id segment parses as `42` — not the claimed sentinel `-1` — and with session
defaulted to `"unknown"` it matches a stored row with id 42 and session
`"unknown"`, resolving to that user rather than `None`. -/
theorem identity_missing_sep_counterexample :
    get_user_by_identity (some "42") [unknownSessionUser] = some unknownSessionUser ∧
    some unknownSessionUser ≠ (none : Option User) :=
  ⟨rfl, by decide⟩

/-- Claim C7 (amended): `get_user_by_identity` is total. `None` yields `None`;
a token whose id segment (the part before the first `$`, or the whole token
without one) does not parse as an i32 looks up sentinel id `-1` and yields
`None` whenever no stored row has id `-1`; a token without a `$` looks up
session `"unknown"` and yields `None` whenever no stored row has that session;
and a token `"<id>$<session>"` whose parsed id and session match a stored row
yields that user. -/
theorem identity_resolution :
    (∀ db, get_user_by_identity none db = none) ∧
    (∀ s (db : List User), parseI32 (splitn2 '$' s).1 = none →
      (∀ u ∈ db, u.id ≠ -1) → get_user_by_identity (some s) db = none) ∧
    (∀ s (db : List User), (splitn2 '$' s).2 = none →
      (∀ u ∈ db, u.session ≠ "unknown") → get_user_by_identity (some s) db = none) ∧
    (∀ idStr sess i (db : List User) user,
      splitn2 '$' (idStr ++ "$" ++ sess) = (idStr, some sess) →
      parseI32 idStr = some i →
      db.find? (fun u => u.id == i && u.session == sess) = some user →
      get_user_by_identity (some (idStr ++ "$" ++ sess)) db = some user) := by
  refine ⟨?_, ?_, ?_, ?_⟩
  · intro db
    simp [get_user_by_identity]
  · intro s db hp hids
    simp only [get_user_by_identity, hp, Option.getD_none, List.find?_eq_none]
    intro u hu
    simp [hids u hu]
  · intro s db hs hsess
    simp only [get_user_by_identity, hs, Option.getD_none, List.find?_eq_none]
    intro u hu
    simp [hsess u hu]
  · intro idStr sess i db user hsplit hparse hfind
    simp [get_user_by_identity, hsplit, hparse, hfind]

theorem identity_resolution_witness :
    get_user_by_identity (some "42$abc123") [carolUser] = some carolUser ∧
    get_user_by_identity (some "notanumber") [aliceUser] = none := by
  constructor
  · exact identity_resolution.2.2.2 "42" "abc123" 42 [carolUser] carolUser rfl rfl rfl
  · exact identity_resolution.2.1 "notanumber" [aliceUser] rfl (by decide)

/-- Claim C8: `try_disassemble` looks the signature's email up
case-insensitively; on a hit it returns the registered username and
`Some id`, and with no decodable email or no matching account it returns the
signature's display name — `"Ghost"` when the name is not decodable — paired
with `None`. -/
theorem try_disassemble_resolution (sig : Signature) (db : List User) :
    (sig.email = none → try_disassemble sig db = ((sig.name).getD "Ghost", none)) ∧
    (∀ e, sig.email = some e →
      db.find? (fun u => lowerString u.email == lowerString e) = none →
      try_disassemble sig db = ((sig.name).getD "Ghost", none)) ∧
    (∀ e user, sig.email = some e →
      db.find? (fun u => lowerString u.email == lowerString e) = some user →
      try_disassemble sig db = (user.username, some user.id)) := by
  refine ⟨?_, ?_, ?_⟩
  · intro h
    simp [try_disassemble, h]
  · intro e he hfind
    simp [try_disassemble, he, hfind]
  · intro e user he hfind
    simp [try_disassemble, he, hfind]

theorem try_disassemble_resolution_witness :
    try_disassemble { name := some "Alice Dev", email := some "ALICE@Example.COM" }
        [aliceUser] = ("alice", some 1) ∧
    try_disassemble { name := none, email := none } [aliceUser] = ("Ghost", none) := by
  constructor
  · exact (try_disassemble_resolution
      { name := some "Alice Dev", email := some "ALICE@Example.COM" } [aliceUser]).2.2
      "ALICE@Example.COM" aliceUser rfl rfl
  · exact (try_disassemble_resolution { name := none, email := none } [aliceUser]).1 rfl

/-- The COM/LPT loop of `is_fs_legal` unrolled. -/
theorem is_fs_legal_expand (s : String) : is_fs_legal s =
    ((s != "CON") && (s != "PRN") && (s != "AUX") && (s != "NUL") && (s != "LST") &&
     (s != "COM0") && (s != "LPT0") && (s != "COM1") && (s != "LPT1") &&
     (s != "COM2") && (s != "LPT2") && (s != "COM3") && (s != "LPT3") &&
     (s != "COM4") && (s != "LPT4") && (s != "COM5") && (s != "LPT5") &&
     (s != "COM6") && (s != "LPT6") && (s != "COM7") && (s != "LPT7") &&
     (s != "COM8") && (s != "LPT8") && (s != "COM9") && (s != "LPT9")) := rfl

/-- Claim C9: `is_fs_legal` returns false exactly on a case-sensitive exact
match of one of CON, PRN, AUX, NUL, LST, COM0–COM9, LPT0–LPT9, and true on
every other string; in particular the lowercase `"con"` is treated as
legal. -/
theorem is_fs_legal_reserved (s : String) :
    (is_fs_legal s = false ↔
      s ∈ (["CON", "PRN", "AUX", "NUL", "LST",
            "COM0", "LPT0", "COM1", "LPT1", "COM2", "LPT2", "COM3", "LPT3",
            "COM4", "LPT4", "COM5", "LPT5", "COM6", "LPT6", "COM7", "LPT7",
            "COM8", "LPT8", "COM9", "LPT9"] : List String)) ∧
    is_fs_legal "con" = true := by
  constructor
  · rw [is_fs_legal_expand]
    simp only [Bool.and_eq_false_iff, bne_eq_false_iff_eq, List.mem_cons,
      List.not_mem_nil, or_false, or_assoc]
  · rfl

/-- Claim C10: whenever `parse_basic_auth` succeeds, the returned username and
password are non-empty, so the emptiness guard repeated inside `authenticate`
evaluates to false and its error branch is unreachable. -/
theorem parse_success_nonempty (hdr u p : String)
    (h : parse_basic_auth hdr = .ok (u, p)) :
    (u.isEmpty || p.isEmpty) = false :=
  parse_ok_nonempty hdr u p h

theorem parse_success_nonempty_witness :
    ("alice".isEmpty || "x".isEmpty) = false :=
  parse_success_nonempty "Basic YWxpY2U6eA==" "alice" "x" rfl
